import Mathlib

/-!
Shallow embedding of the recommendation engine in
`src/hooks/useSupabaseData.ts` (the hook `useSupabaseData`).

Conventions of the embedding:
* JavaScript numbers that hold counts or identifiers become `Nat`;
  fractional minutes become `ℚ`; scores become `ℚ`.
* Nullable / optional fields (`song.tags?`, `song.likes || 0`, …) become
  `Option`.
* `Math.log` is an abstract parameter `log : ℚ → ℚ` of every scoring
  function (floating point logarithms are not modelled bit for bit; every
  claim proved here holds for an arbitrary `log`, with facts such as
  `log 1 = 0` taken as hypotheses where a claim needs them).
* `Math.random()` draws become an explicit per-candidate jitter argument
  `rand : DatabaseSong → ℚ`.
* A supabase read `{ data, error }` becomes
  `Except String (Option (List _))`: `.error e` is a non-null `error`,
  `.ok none` a null `data`, `.ok (some l)` a successful read.
* JavaScript `Set` / array membership tests become list membership `∈`
  (only membership is ever consumed from those sets).
* `Array.prototype.sort`, which is a stable sort, is modelled by
  `List.insertionSort` (stable) on the comparator of the source.
-/

/-- Row of the `songs` table, as selected by the select-all query
(`DatabaseSong` in `src/lib/supabase`). -/
structure DatabaseSong where
  file_id : Nat
  img_id : Nat
  name : String
  artist : String
  language : String
  tags : Option (List String)
  views : Option Nat
  likes : Option Nat
deriving Repr, DecidableEq

/-- The UI `Song` shape produced by `convertDatabaseSong`. -/
structure Song where
  file_id : Nat
  img_id : Nat
  name : String
  artist : String
  language : String
  tags : Option (List String)
  views : Option Nat
  likes : Option Nat
  id : String
  image : String
  isLiked : Bool
deriving Repr, DecidableEq

/-- Source `convertDatabaseSong` (lines 138-150): copies the database
fields, sets `id` to the decimal string of `file_id`, builds the image
URL and records the liked flag. -/
def convertDatabaseSong (dbSong : DatabaseSong) (isLiked : Bool) : Song :=
  { file_id := dbSong.file_id
    img_id := dbSong.img_id
    name := dbSong.name
    artist := dbSong.artist
    language := dbSong.language
    tags := dbSong.tags
    views := dbSong.views
    likes := dbSong.likes
    id := toString dbSong.file_id
    image := "https://images.pexels.com/photos/" ++ toString dbSong.img_id
      ++ "/pexels-photo-" ++ toString dbSong.img_id
      ++ ".jpeg?auto=compress&cs=tinysrgb&w=300"
    isLiked := isLiked }

/-- Scored candidate: `{ song, score }` entries built by each strategy
before sorting. -/
structure ScoredSong where
  song : Song
  score : ℚ
deriving Repr, DecidableEq

/-- Descending-score comparator of
`(a, b) => b.score - a.score`: `a` may come before `b` iff
`b.score ≤ a.score`. -/
def scoreGe (a b : ScoredSong) : Prop := b.score ≤ a.score

instance : DecidableRel scoreGe := fun a b => inferInstanceAs (Decidable (b.score ≤ a.score))

instance : IsTotal ScoredSong scoreGe := ⟨fun a b => le_total b.score a.score⟩

instance : IsTrans ScoredSong scoreGe := ⟨fun _ _ _ h h2 => le_trans h2 h⟩

/-- Source `scoredSongs.sort((a, b) => b.score - a.score)`: a stable
sort, descending by score. -/
def sortByScoreDesc (l : List ScoredSong) : List ScoredSong :=
  List.insertionSort scoreGe l

/-- The Ranker/Selector common to all three strategies:
`.sort((a, b) => b.score - a.score).slice(0, n).map(entry => entry.song)`. -/
def rankSelect (n : Nat) (scored : List ScoredSong) : List Song :=
  ((sortByScoreDesc scored).take n).map ScoredSong.song

/-- The popularity term shared verbatim by all three scorers:
`Math.log(1 + (song.likes || 0)) * 2 + Math.log(1 + (song.views || 0)) * 1`. -/
def popularityBoost (log : ℚ → ℚ) (song : DatabaseSong) : ℚ :=
  log (1 + (song.likes.getD 0 : ℚ)) * 2 + log (1 + (song.views.getD 0 : ℚ)) * 1

/-- JavaScript `.toLowerCase()`, written at the character level (the
ASCII case mapping of `Char.toLower`, the same mapping `String.toLower`
applies) so that concrete evaluation reduces inside the kernel. -/
def jsLower (s : String) : String := String.mk (s.data.map Char.toLower)

/-- JavaScript `.trim()`: strip leading and trailing whitespace, written
at the character level so that concrete evaluation reduces. -/
def jsTrim (s : String) : String :=
  String.mk (((s.data.dropWhile Char.isWhitespace).reverse.dropWhile
    Char.isWhitespace).reverse)

/-! ### Session-based ("smart") strategy: `getSmartPersonalizedSongs` -/

/-- Source `preferredTags` (lines 33-39): every tag of every listened song,
lower-cased (`tag.toLowerCase()`); only membership is consumed. -/
def preferredTags (listenedSongsInBatch : List Song) : List String :=
  listenedSongsInBatch.flatMap fun song => (song.tags.getD []).map jsLower

/-- Source `preferredArtists` (line 38): `song.artist.toLowerCase()` for each
listened song (no trimming in the source). -/
def preferredArtists (listenedSongsInBatch : List Song) : List String :=
  listenedSongsInBatch.map fun song => jsLower song.artist

/-- Lines 87-88: `song.tags?.map(t => t.toLowerCase()) || []` filtered by
membership in the preferred-tag set, then `.length`. -/
def smartMatchCount (prefTags : List String) (song : DatabaseSong) : Nat :=
  (((song.tags.getD []).map jsLower).filter fun tag => decide (tag ∈ prefTags)).length

/-- The session-mode score (lines 84-117): tag matches × 25, artist
bonus 30, language bonus 15, popularity, liked bonus 10, jitter. -/
def smartScore (log : ℚ → ℚ) (prefTags prefArtists : List String)
    (listenedLanguages : List String) (userLikedSongs : List Nat)
    (song : DatabaseSong) (rand : ℚ) : ℚ :=
  (smartMatchCount prefTags song : ℚ) * 25
    + (if jsLower song.artist ∈ prefArtists then 30 else 0)
    + (if song.language ∈ listenedLanguages then 15 else 0)
    + popularityBoost log song
    + (if song.file_id ∈ userLikedSongs then 10 else 0)
    + rand

/-- Source `getSmartPersonalizedSongs` (lines 18-135) as a pure function of the
fetched data. `songsResult` is the `songs` read, `likedData` the
`liked_songs` read (its error field is never consulted in the source).
The surrounding `try/catch` returns `[]` on any failure. -/
def getSmartPersonalizedSongs (log : ℚ → ℚ) (rand : DatabaseSong → ℚ)
    (listenedSongsInBatch : List Song) (excludeSongs : List String)
    (songsResult : Except String (Option (List DatabaseSong)))
    (likedData : Option (List Nat)) : List Song :=
  if listenedSongsInBatch.isEmpty then []
  else
    match songsResult with
    | .error _ => []
    | .ok none => []
    | .ok (some songsData) =>
      if songsData.isEmpty then []
      else
        let prefTags := preferredTags listenedSongsInBatch
        let prefArtists := preferredArtists listenedSongsInBatch
        let userLikedSongs := likedData.getD []
        let availableSongs := songsData.filter fun song =>
          decide (toString song.file_id ∉ excludeSongs)
        if availableSongs.isEmpty then []
        else
          let scoredSongs := availableSongs.map fun song =>
            { song := convertDatabaseSong song (decide (song.file_id ∈ userLikedSongs))
              score := smartScore log prefTags prefArtists
                (listenedSongsInBatch.map Song.language) userLikedSongs song (rand song) }
          rankSelect 15 scoredSongs

/-! ### Contextual strategy: `getPersonalizedSongs` -/

/-- Row of the `history` table as selected with the song_id and
minutes_listened columns. -/
structure HistoryRow where
  song_id : Nat
  minutes_listened : Option ℚ
deriving Repr, DecidableEq

/-- JavaScript `Map<number, number>` restricted to the operations the
source uses. -/
def JsMap := List (Nat × ℚ)

/-- Operation `map.set(k, v)`: replaces any existing binding of `k`
with `v`. -/
def JsMap.set (m : JsMap) (k : Nat) (v : ℚ) : JsMap :=
  (List.filter (fun p => decide (p.1 ≠ k)) m) ++ [(k, v)]

/-- Operation `map.get(k)`. -/
def JsMap.get (m : JsMap) (k : Nat) : Option ℚ :=
  (List.find? (fun p => decide (p.1 = k)) m).map Prod.snd

/-- Lines 240-243: `historyData.forEach(h => historyMap.set(h.song_id,
h.minutes_listened || 0))`. -/
def buildHistoryMap (historyData : List HistoryRow) : JsMap :=
  historyData.foldl (fun m h => m.set h.song_id (h.minutes_listened.getD 0)) []

/-- Lines 284-286: `song.tags?.filter(tag => currentSong.tags?.includes(tag)) || []`
then `.length`. The comparison is verbatim string equality. -/
def ctxMatchCount (currentSong : Song) (song : DatabaseSong) : Nat :=
  ((song.tags.getD []).filter fun tag => decide (tag ∈ currentSong.tags.getD [])).length

/-- The contextual score (lines 281-313): tag matches × 15, artist
bonus 25 on exact equality, language bonus 10, history boost
`min(minutes * 2, 20)`, popularity, liked bonus 8, jitter. -/
def ctxScore (log : ℚ → ℚ) (currentSong : Song) (historyMap : JsMap)
    (userLikedSongs : List Nat) (song : DatabaseSong) (rand : ℚ) : ℚ :=
  (ctxMatchCount currentSong song : ℚ) * 15
    + (if song.artist = currentSong.artist then 25 else 0)
    + (if song.language = currentSong.language then 10 else 0)
    + min ((historyMap.get song.file_id).getD 0 * 2) 20
    + popularityBoost log song
    + (if song.file_id ∈ userLikedSongs then 8 else 0)
    + rand

/-- Source `getPersonalizedSongs` (lines 210-336) as a pure function of the
fetched data. A history read error is only logged (the code proceeds
with a null `historyData`), so `historyData` carries data only. -/
def getPersonalizedSongs (log : ℚ → ℚ) (rand : DatabaseSong → ℚ)
    (currentSong : Song) (listenedSongs : Option (List String))
    (songsResult : Except String (Option (List DatabaseSong)))
    (historyData : Option (List HistoryRow))
    (likedData : Option (List Nat)) : List Song :=
  match songsResult with
  | .error _ => []
  | .ok none => []
  | .ok (some songsData) =>
    if songsData.isEmpty then []
    else
      let historyMap := buildHistoryMap (historyData.getD [])
      let userLikedSongs := likedData.getD []
      let availableSongs := songsData.filter fun song =>
        if song.file_id = currentSong.file_id then false
        else
          match listenedSongs with
          | some ls => decide (toString song.file_id ∉ ls)
          | none => true
      if availableSongs.isEmpty then []
      else
        let scoredSongs := availableSongs.map fun song =>
          { song := convertDatabaseSong song (decide (song.file_id ∈ userLikedSongs))
            score := ctxScore log currentSong historyMap userLikedSongs song (rand song) }
        rankSelect 10 scoredSongs

/-! ### History-derived strategy: `fetchPersonalizedSongs` -/

/-- Row of the `history` read with the joined song row; the join may
be null. -/
structure HistoryJoinRow where
  song_id : Nat
  minutes_listened : Option ℚ
  songs : Option DatabaseSong
deriving Repr, DecidableEq

/-- Descending-by-count comparator of `(a, b) => b[1] - a[1]` on the
`Map` entries. -/
def countGe (a b : String × Nat) : Prop := b.2 ≤ a.2

instance : DecidableRel countGe := fun a b => inferInstanceAs (Decidable (b.2 ≤ a.2))

instance : IsTotal (String × Nat) countGe := ⟨fun a b => Nat.le_total b.2 a.2⟩

instance : IsTrans (String × Nat) countGe := ⟨fun _ _ _ h h2 => Nat.le_trans h2 h⟩

/-- Operation `map.set(k, (map.get(k) || 0) + 1)` on a counting `Map`,
keeping the first-insertion position of the key as JavaScript `Map`
does. -/
def bumpCount (m : List (String × Nat)) (k : String) : List (String × Nat) :=
  if m.any (fun p => decide (p.1 = k)) then
    m.map fun p => if p.1 = k then (p.1, p.2 + 1) else p
  else m ++ [(k, 1)]

/-- Lines 399-411: count `tag.toLowerCase().trim()` occurrences over the
top history songs (tags counted only when the field is an array). -/
def tagCountsOf (topSongs : List DatabaseSong) : List (String × Nat) :=
  topSongs.foldl
    (fun counts song =>
      ((song.tags.getD []).map fun tag => jsTrim (jsLower tag)).foldl bumpCount counts)
    []

/-- Lines 400-416: count `song.artist.toLowerCase().trim()` occurrences
over the top history songs. -/
def artistCountsOf (topSongs : List DatabaseSong) : List (String × Nat) :=
  topSongs.foldl
    (fun counts song => bumpCount counts (jsTrim (jsLower song.artist)))
    []

/-- Source `Array.from(counts.entries()).sort((a, b) => b[1] - a[1])`
then `.slice(0, k).map(([key]) => key)`. -/
def topKeys (k : Nat) (counts : List (String × Nat)) : List String :=
  ((List.insertionSort countGe counts).take k).map Prod.fst

/-- Lines 477-481: candidate tags lower-cased and trimmed, filtered by
membership in the common-tag list, then `.length`. -/
def histMatchCount (commonTags : List String) (song : DatabaseSong) : Nat :=
  (((song.tags.getD []).map fun tag => jsTrim (jsLower tag)).filter
    fun tag => decide (tag ∈ commonTags)).length

/-- The history-mode score (lines 473-504): tag matches × 20, artist
bonus 25, liked bonus 10, popularity, jitter. -/
def histScore (log : ℚ → ℚ) (commonTags commonArtists : List String)
    (userLikedSongs : List Nat) (song : DatabaseSong) (rand : ℚ) : ℚ :=
  (histMatchCount commonTags song : ℚ) * 20
    + (if jsTrim (jsLower song.artist) ∈ commonArtists then 25 else 0)
    + (if song.file_id ∈ userLikedSongs then 10 else 0)
    + popularityBoost log song
    + rand

/-- Descending-views comparator for the trending query (null views read
as 0). -/
def viewsGe (a b : DatabaseSong) : Prop := b.views.getD 0 ≤ a.views.getD 0

instance : DecidableRel viewsGe := fun a b =>
  inferInstanceAs (Decidable (b.views.getD 0 ≤ a.views.getD 0))

instance : IsTotal DatabaseSong viewsGe := ⟨fun a b => Nat.le_total (b.views.getD 0) (a.views.getD 0)⟩

instance : IsTrans DatabaseSong viewsGe := ⟨fun _ _ _ h h2 => Nat.le_trans h2 h⟩

/-- Modelled from the spec: the trending query
`from(songs).select(all).order(views, descending).limit(20)`
is executed by the external storage collaborator, not by code under
`src/`; the spec describes its result as the catalog sorted by view
count descending, truncated to the top 20. -/
def trendingQuery (catalog : List DatabaseSong) : List DatabaseSong :=
  (List.insertionSort viewsGe catalog).take 20

/-- Source `fetchPersonalizedSongs` (lines 339-520) as a pure function of the
fetched data, returning the list passed to `setPersonalizedSongs`, or
`none` when no `setPersonalizedSongs` call happens (which occurs only on
the fallback path when the trending read yields null data). -/
def fetchPersonalizedSongs (log : ℚ → ℚ) (rand : DatabaseSong → ℚ)
    (userPresent : Bool)
    (historyResult : Except String (Option (List HistoryJoinRow)))
    (trendingData : Option (List DatabaseSong))
    (songsResult : Except String (Option (List DatabaseSong)))
    (likedData : Option (List Nat)) : Option (List Song) :=
  if !userPresent then some []
  else
    match historyResult with
    | .error _ => some []
    | .ok hd =>
      let historyData := hd.getD []
      if historyData.isEmpty then
        match trendingData with
        | none => none
        | some trendingSongs =>
          let userLikedSongs := likedData.getD []
          some (trendingSongs.map fun song =>
            convertDatabaseSong song (decide (song.file_id ∈ userLikedSongs)))
      else
        let topSongs := historyData.filterMap HistoryJoinRow.songs
        let historySongIds := topSongs.map DatabaseSong.file_id
        let commonTags := topKeys 5 (tagCountsOf topSongs)
        let commonArtists := topKeys 3 (artistCountsOf topSongs)
        match songsResult with
        | .error _ => some []
        | .ok allSongsData =>
          let allSongs := allSongsData.getD []
          if allSongs.isEmpty then some []
          else
            let userLikedSongs := likedData.getD []
            let availableSongs := allSongs.filter fun song =>
              decide (song.file_id ∉ historySongIds)
            if availableSongs.isEmpty then some []
            else
              let scoredSongs := availableSongs.map fun song =>
                { song := convertDatabaseSong song (decide (song.file_id ∈ userLikedSongs))
                  score := histScore log commonTags commonArtists userLikedSongs song
                    (rand song) }
              some (rankSelect 30 scoredSongs)

/-! ### Lemmas about the Ranker/Selector -/

theorem sortByScoreDesc_perm (l : List ScoredSong) : (sortByScoreDesc l).Perm l :=
  List.perm_insertionSort scoreGe l

theorem mem_rankSelect {n : Nat} {scored : List ScoredSong} {s : Song}
    (hs : s ∈ rankSelect n scored) : ∃ e ∈ scored, ScoredSong.song e = s := by
  rcases List.mem_map.mp hs with ⟨e, he, rfl⟩
  exact ⟨e, (sortByScoreDesc_perm scored).mem_iff.mp ((List.take_sublist _ _).subset he), rfl⟩

theorem length_rankSelect_le (n : Nat) (scored : List ScoredSong) :
    (rankSelect n scored).length ≤ n := by
  simp only [rankSelect, List.length_map, List.length_take]
  exact Nat.min_le_left _ _

theorem nodup_rankSelect {n : Nat} {scored : List ScoredSong}
    (h : (scored.map fun e => e.song.file_id).Nodup) :
    ((rankSelect n scored).map Song.file_id).Nodup := by
  have hperm : ((sortByScoreDesc scored).map fun e => e.song.file_id).Perm
      (scored.map fun e => e.song.file_id) := (sortByScoreDesc_perm scored).map _
  have hnodup : ((sortByScoreDesc scored).map fun e => e.song.file_id).Nodup :=
    hperm.nodup_iff.mpr h
  have hsub : (((sortByScoreDesc scored).take n).map fun e => e.song.file_id).Sublist
      ((sortByScoreDesc scored).map fun e => e.song.file_id) :=
    (List.take_sublist _ _).map _
  simpa [rankSelect, List.map_map, Function.comp_def] using hnodup.sublist hsub

theorem sorted_rankSelect (n : Nat) (scored : List ScoredSong) :
    ((sortByScoreDesc scored).take n).Sorted scoreGe :=
  List.Pairwise.sublist (List.take_sublist _ _) (List.sorted_insertionSort scoreGe scored)

theorem rankSelect_of_length_le {n : Nat} {scored : List ScoredSong}
    (h : scored.length ≤ n) : (rankSelect n scored).Perm (scored.map ScoredSong.song) := by
  have hlen : (sortByScoreDesc scored).length ≤ n := by
    simpa [sortByScoreDesc, List.length_insertionSort] using h
  rw [rankSelect, List.take_of_length_le hlen]
  exact (sortByScoreDesc_perm scored).map _

/-! ### Sample data used by the concrete witnesses -/

/-- Zero stand-in for `Math.log` in concrete evaluations. -/
def zeroLog : ℚ → ℚ := fun _ => 0

/-- Zero stand-in for the jitter draws in concrete evaluations. -/
def zeroRand : DatabaseSong → ℚ := fun _ => 0

def dbSong1 : DatabaseSong :=
  { file_id := 1, img_id := 11, name := "one", artist := "Ann", language := "en",
    tags := some ["pop"], views := some 5, likes := some 2 }

def dbSong2 : DatabaseSong :=
  { file_id := 2, img_id := 12, name := "two", artist := "Ben", language := "fr",
    tags := some ["rock"], views := some 3, likes := some 1 }

def sessionSong : Song := convertDatabaseSong dbSong1 false

/-! ### Claims -/

/-- Claim C1: for every strategy invocation, every excluded track
identifier is absent from the returned recommendation list: in session
mode every id in the caller-supplied exclusion set, in contextual mode
the id of the current track and every id in the caller-supplied
listened set, and in history mode every id of the top-10 history tracks
(the songs joined onto the history rows). -/
theorem claim_C1 (log : ℚ → ℚ) (rand : DatabaseSong → ℚ)
    (listened : List Song) (excludeSongs : List String)
    (songsResult : Except String (Option (List DatabaseSong)))
    (likedData : Option (List Nat))
    (currentSong : Song) (listenedSongs : List String)
    (historyData : Option (List HistoryRow))
    (userPresent : Bool)
    (historyResult : Except String (Option (List HistoryJoinRow)))
    (trendingData : Option (List DatabaseSong)) :
    (∀ s ∈ getSmartPersonalizedSongs log rand listened excludeSongs songsResult likedData,
      s.id ∉ excludeSongs) ∧
    (∀ s ∈ getPersonalizedSongs log rand currentSong (some listenedSongs) songsResult
        historyData likedData,
      s.file_id ≠ currentSong.file_id ∧ s.id ∉ listenedSongs) ∧
    (∀ hd out, historyResult = .ok (some hd) →
      fetchPersonalizedSongs log rand userPresent historyResult trendingData songsResult
        likedData = some out →
      ∀ s ∈ out, ∀ row ∈ hd, ∀ db, row.songs = some db → s.file_id ≠ db.file_id) := by
  refine ⟨?_, ?_, ?_⟩
  · intro s hs
    unfold getSmartPersonalizedSongs at hs
    split at hs
    · simp at hs
    · split at hs
      · simp at hs
      · simp at hs
      · split at hs
        · simp at hs
        · try dsimp only at hs
          split at hs
          · simp at hs
          · rcases mem_rankSelect hs with ⟨e, he, rfl⟩
            rcases List.mem_map.mp he with ⟨song, hsong, rfl⟩
            have hp := List.of_mem_filter hsong
            simpa [convertDatabaseSong] using of_decide_eq_true hp
  · intro s hs
    unfold getPersonalizedSongs at hs
    split at hs
    · simp at hs
    · simp at hs
    · split at hs
      · simp at hs
      · try dsimp only at hs
        split at hs
        · simp at hs
        · rcases mem_rankSelect hs with ⟨e, he, rfl⟩
          rcases List.mem_map.mp he with ⟨song, hsong, rfl⟩
          have hp := List.of_mem_filter hsong
          by_cases hc : song.file_id = currentSong.file_id
          · simp [hc] at hp
          · refine ⟨by simpa [convertDatabaseSong] using hc, ?_⟩
            simp only [if_neg hc] at hp
            simpa [convertDatabaseSong] using of_decide_eq_true hp
  · intro hd out hhr hout s hs row hrow db hdb
    subst hhr
    unfold fetchPersonalizedSongs at hout
    split at hout
    · cases hout
      simp at hs
    · try dsimp only [Option.getD] at hout
      split at hout
      · rename_i hempty
        rw [List.isEmpty_iff] at hempty
        subst hempty
        simp at hrow
      · split at hout
        · cases hout
          simp at hs
        · try dsimp only at hout
          split at hout
          · cases hout
            simp at hs
          · split at hout
            · cases hout
              simp at hs
            · cases hout
              rcases mem_rankSelect hs with ⟨e, he, rfl⟩
              rcases List.mem_map.mp he with ⟨song, hsong, rfl⟩
              have hp := List.of_mem_filter hsong
              rw [decide_eq_true_eq] at hp
              intro heq
              apply hp
              have hdbmem : db ∈ hd.filterMap HistoryJoinRow.songs :=
                List.mem_filterMap.mpr ⟨row, hrow, hdb⟩
              have hidmem : db.file_id ∈ (hd.filterMap HistoryJoinRow.songs).map
                  DatabaseSong.file_id := List.mem_map_of_mem _ hdbmem
              have hsd : song.file_id = db.file_id := by
                simpa [convertDatabaseSong] using heq
              rw [hsd]
              exact hidmem

/-- Concrete instance of claim C1: with catalog songs 1 and 2 and
exclusion set containing the id 1, the session recommendation that does
come back (song 2) is not the excluded id. -/
theorem claim_C1_witness :
    (convertDatabaseSong dbSong2 false).id ∉ (["1"] : List String) :=
  (claim_C1 zeroLog zeroRand [sessionSong] ["1"] (.ok (some [dbSong1, dbSong2])) none
      sessionSong [] none true (.ok (some [])) none).1
    (convertDatabaseSong dbSong2 false) (by decide)

def sampleScored : List ScoredSong :=
  [{ song := convertDatabaseSong dbSong1 false, score := 1 },
   { song := convertDatabaseSong dbSong2 true, score := 5 }]

def hrow1 : HistoryJoinRow := { song_id := 1, minutes_listened := some 3, songs := some dbSong1 }

/-- Claim C2: the Ranker/Selector output has no duplicate track
identifiers when the candidate identifiers are distinct, has size at
most the requested n, is ordered descending by score, and when fewer
than n candidates exist it is exactly all of them (a permutation of the
candidate list, no error, no padding); the strategies request 15
(session), 10 (contextual) and 30 (history). -/
theorem claim_C2 (n : Nat) (scored : List ScoredSong)
    (log : ℚ → ℚ) (rand : DatabaseSong → ℚ)
    (listened : List Song) (excludeSongs : List String)
    (songsResult : Except String (Option (List DatabaseSong)))
    (likedData : Option (List Nat))
    (currentSong : Song) (listenedSongs : Option (List String))
    (historyData : Option (List HistoryRow))
    (userPresent : Bool)
    (historyResult : Except String (Option (List HistoryJoinRow)))
    (trendingData : Option (List DatabaseSong)) :
    ((scored.map fun e => e.song.file_id).Nodup →
      ((rankSelect n scored).map Song.file_id).Nodup) ∧
    (rankSelect n scored).length ≤ n ∧
    ((sortByScoreDesc scored).take n).Sorted scoreGe ∧
    (scored.length ≤ n → (rankSelect n scored).Perm (scored.map ScoredSong.song)) ∧
    (getSmartPersonalizedSongs log rand listened excludeSongs songsResult likedData).length
      ≤ 15 ∧
    (getPersonalizedSongs log rand currentSong listenedSongs songsResult historyData
      likedData).length ≤ 10 ∧
    (∀ hd out, historyResult = .ok (some hd) → hd ≠ [] →
      fetchPersonalizedSongs log rand userPresent historyResult trendingData songsResult
        likedData = some out → out.length ≤ 30) := by
  refine ⟨fun h => nodup_rankSelect h, length_rankSelect_le n scored,
    sorted_rankSelect n scored, fun h => rankSelect_of_length_le h, ?_, ?_, ?_⟩
  · unfold getSmartPersonalizedSongs
    split
    · simp
    · split
      · simp
      · simp
      · split
        · simp
        · try dsimp only
          split
          · simp
          · exact length_rankSelect_le _ _
  · unfold getPersonalizedSongs
    split
    · simp
    · simp
    · split
      · simp
      · try dsimp only
        split
        · simp
        · exact length_rankSelect_le _ _
  · intro hd out hhr hne hout
    subst hhr
    unfold fetchPersonalizedSongs at hout
    split at hout
    · cases hout
      simp
    · try dsimp only [Option.getD] at hout
      split at hout
      · rename_i hempty
        rw [List.isEmpty_iff] at hempty
        exact absurd hempty hne
      · split at hout
        · cases hout
          simp
        · try dsimp only at hout
          split at hout
          · cases hout
            simp
          · split at hout
            · cases hout
              simp
            · cases hout
              exact length_rankSelect_le _ _

/-- Concrete instance of claim C2: a two-candidate pass keeps distinct
ids, returns both candidates when fewer than 15 exist, and a history
pass over a one-row history returns at most 30 songs. -/
theorem claim_C2_witness :
    ((rankSelect 15 sampleScored).map Song.file_id).Nodup ∧
    (rankSelect 15 sampleScored).Perm (sampleScored.map ScoredSong.song) ∧
    ([convertDatabaseSong dbSong2 false] : List Song).length ≤ 30 :=
  ⟨(claim_C2 15 sampleScored zeroLog zeroRand [] [] (.ok none) none sessionSong none
      none true (.ok none) none).1 (by decide),
   (claim_C2 15 sampleScored zeroLog zeroRand [] [] (.ok none) none sessionSong none
      none true (.ok none) none).2.2.2.1 (by decide),
   (claim_C2 15 sampleScored zeroLog zeroRand [] [] (.ok (some [dbSong1, dbSong2])) none
      sessionSong none none true (.ok (some [hrow1])) none).2.2.2.2.2.2
     [hrow1] [convertDatabaseSong dbSong2 false] rfl (by decide) (by decide)⟩

/-- Counterexample to claim C3 as stated: with empty history and a
null trending read, the history strategy makes no store call at all
(lines 366-392 return without calling setPersonalizedSongs, modelled
as none) — it stores neither the empty list nor the fallback, although
the trending read is a failed upstream read squarely inside the claim. -/
theorem claim_C3_cex :
    fetchPersonalizedSongs zeroLog zeroRand true (.ok (some [])) none (.ok none) none
      = none ∧
    fetchPersonalizedSongs zeroLog zeroRand true (.ok (some [])) none (.ok none) none
      ≠ some [] := by
  exact ⟨rfl, fun h => Option.noConfusion h⟩

/-- Claim C3 amended: when an upstream read fails (non-null error or
null data) or no usable signal or candidates exist (empty session
batch, empty catalog, every candidate filtered out), each strategy
returns the empty list, except that the history strategy with no
history returns the trending fallback when the trending read succeeds
and makes no store call at all when the trending read yields null data
(the stored list is left untouched); each strategy is a total function,
so nothing is raised past the boundary. -/
theorem claim_C3 (log : ℚ → ℚ) (rand : DatabaseSong → ℚ)
    (listened : List Song) (excludeSongs : List String) (e : String)
    (songsResult : Except String (Option (List DatabaseSong)))
    (songsData : List DatabaseSong)
    (likedData : Option (List Nat))
    (currentSong : Song) (listenedSongs : List String)
    (historyData : Option (List HistoryRow))
    (trendingData : Option (List DatabaseSong))
    (historyResult : Except String (Option (List HistoryJoinRow)))
    (hd : List HistoryJoinRow)
    (trending : List DatabaseSong) :
    (getSmartPersonalizedSongs log rand [] excludeSongs songsResult likedData = []) ∧
    (getSmartPersonalizedSongs log rand listened excludeSongs (.error e) likedData = []) ∧
    (getSmartPersonalizedSongs log rand listened excludeSongs (.ok none) likedData = []) ∧
    (getSmartPersonalizedSongs log rand listened excludeSongs (.ok (some [])) likedData
      = []) ∧
    ((∀ song ∈ songsData, toString song.file_id ∈ excludeSongs) →
      getSmartPersonalizedSongs log rand listened excludeSongs (.ok (some songsData))
        likedData = []) ∧
    (getPersonalizedSongs log rand currentSong (some listenedSongs) (.error e) historyData
      likedData = []) ∧
    (getPersonalizedSongs log rand currentSong (some listenedSongs) (.ok none) historyData
      likedData = []) ∧
    (getPersonalizedSongs log rand currentSong (some listenedSongs) (.ok (some []))
      historyData likedData = []) ∧
    ((∀ song ∈ songsData, song.file_id = currentSong.file_id ∨
        toString song.file_id ∈ listenedSongs) →
      getPersonalizedSongs log rand currentSong (some listenedSongs) (.ok (some songsData))
        historyData likedData = []) ∧
    (fetchPersonalizedSongs log rand false historyResult trendingData songsResult likedData
      = some []) ∧
    (fetchPersonalizedSongs log rand true (.error e) trendingData songsResult likedData
      = some []) ∧
    (fetchPersonalizedSongs log rand true (.ok (some [])) (some trending) songsResult
        likedData
      = some (trending.map fun song =>
          convertDatabaseSong song (decide (song.file_id ∈ likedData.getD [])))) ∧
    (fetchPersonalizedSongs log rand true (.ok none) (some trending) songsResult likedData
      = some (trending.map fun song =>
          convertDatabaseSong song (decide (song.file_id ∈ likedData.getD [])))) ∧
    (fetchPersonalizedSongs log rand true (.ok (some [])) none songsResult likedData
      = none) ∧
    (hd ≠ [] →
      fetchPersonalizedSongs log rand true (.ok (some hd)) trendingData (.error e) likedData
        = some []) ∧
    (hd ≠ [] →
      fetchPersonalizedSongs log rand true (.ok (some hd)) trendingData (.ok none) likedData
        = some []) ∧
    (hd ≠ [] →
      fetchPersonalizedSongs log rand true (.ok (some hd)) trendingData (.ok (some []))
        likedData = some []) ∧
    (hd ≠ [] →
      (∀ song ∈ songsData,
        song.file_id ∈ (hd.filterMap HistoryJoinRow.songs).map DatabaseSong.file_id) →
      fetchPersonalizedSongs log rand true (.ok (some hd)) trendingData
        (.ok (some songsData)) likedData = some []) := by
  refine ⟨rfl, ?_, ?_, ?_, ?_, rfl, rfl, rfl, ?_, rfl, rfl, rfl, rfl, rfl, ?_, ?_, ?_, ?_⟩
  · unfold getSmartPersonalizedSongs
    split <;> rfl
  · unfold getSmartPersonalizedSongs
    split <;> rfl
  · unfold getSmartPersonalizedSongs
    split <;> rfl
  · intro h
    simp [getSmartPersonalizedSongs]
    intro _ _ x hx hnx
    exact absurd (h x hx) hnx
  · intro h
    simp [getPersonalizedSongs]
    intro _ x hx hne hnx
    rcases h x hx with hc | hc
    · exact absurd hc hne
    · exact absurd hc hnx
  · intro hne
    rcases List.exists_cons_of_ne_nil hne with ⟨r, rs, rfl⟩
    rfl
  · intro hne
    rcases List.exists_cons_of_ne_nil hne with ⟨r, rs, rfl⟩
    rfl
  · intro hne
    rcases List.exists_cons_of_ne_nil hne with ⟨r, rs, rfl⟩
    rfl
  · intro hne h
    rcases List.exists_cons_of_ne_nil hne with ⟨r, rs, rfl⟩
    simp [fetchPersonalizedSongs]
    intro _ x hx hnx
    rcases List.mem_map.mp (h x hx) with ⟨db, hdb, hfid⟩
    rcases List.mem_filterMap.mp hdb with ⟨a, ha, hsome⟩
    rcases List.mem_cons.mp ha with rfl | ha2
    · exact absurd hfid (hnx db (Or.inl hsome))
    · exact absurd hfid (hnx db (Or.inr ⟨a, ha2, hsome⟩))

/-- Concrete instance of claim C3: with every candidate excluded, the
session strategy returns the empty list, and with every candidate in
the history set, the history strategy stores the empty list. -/
theorem claim_C3_witness :
    getSmartPersonalizedSongs zeroLog zeroRand [sessionSong] ["1"] (.ok (some [dbSong1]))
      none = [] ∧
    fetchPersonalizedSongs zeroLog zeroRand true (.ok (some [hrow1])) none
      (.ok (some [dbSong1])) none = some [] :=
  ⟨(claim_C3 zeroLog zeroRand [sessionSong] ["1"] "boom" (.ok none) [dbSong1] none
      sessionSong [] none none (.ok none) [hrow1] []).2.2.2.2.1 (by decide),
   (claim_C3 zeroLog zeroRand [sessionSong] ["1"] "boom" (.ok none) [dbSong1] none
      sessionSong [] none none (.ok none) [hrow1]
      []).2.2.2.2.2.2.2.2.2.2.2.2.2.2.2.2.2 (by decide) (by decide)⟩

/-- Claim C4: when the listening history is empty, the history strategy
stores the trending list: the catalog sorted by view count descending
(a permutation of the catalog, sorted), truncated to the top 20, with
each returned track liked exactly when its id is in the liked set, in
the trending order. -/
theorem claim_C4 (log : ℚ → ℚ) (rand : DatabaseSong → ℚ)
    (catalog : List DatabaseSong) (liked : List Nat)
    (songsResult : Except String (Option (List DatabaseSong)))
    (out : List Song)
    (hout : fetchPersonalizedSongs log rand true (.ok (some []))
      (some (trendingQuery catalog)) songsResult (some liked) = some out) :
    (List.insertionSort viewsGe catalog).Perm catalog ∧
    (trendingQuery catalog).Sorted viewsGe ∧
    out.Pairwise (fun a b => b.views.getD 0 ≤ a.views.getD 0) ∧
    out.length = min 20 catalog.length ∧
    (∀ s ∈ out, s.isLiked = true ↔ s.file_id ∈ liked) ∧
    out.map Song.file_id = (trendingQuery catalog).map DatabaseSong.file_id := by
  have hsorted : (trendingQuery catalog).Sorted viewsGe :=
    List.Pairwise.sublist (List.take_sublist _ _) (List.sorted_insertionSort viewsGe catalog)
  have hout2 : ((trendingQuery catalog).map fun song =>
      convertDatabaseSong song (decide (song.file_id ∈ liked))) = out :=
    Option.some.inj hout
  subst hout2
  refine ⟨List.perm_insertionSort viewsGe catalog, hsorted, ?_, ?_, ?_, ?_⟩
  · refine List.pairwise_map.mpr ?_
    simpa [convertDatabaseSong, viewsGe, List.Sorted] using hsorted
  · simp [trendingQuery, List.length_insertionSort]
  · intro s hs
    rcases List.mem_map.mp hs with ⟨a, ha, rfl⟩
    simp [convertDatabaseSong]
  · simp [List.map_map, convertDatabaseSong, Function.comp_def]

def sampleTrendingOut : List Song :=
  [convertDatabaseSong dbSong1 false, convertDatabaseSong dbSong2 true]

/-- Concrete instance of claim C4: a two-song catalog with views 3 and
5 comes back ordered 5-then-3 with the liked flag from the liked set. -/
theorem claim_C4_witness :
    sampleTrendingOut.Pairwise (fun a b => b.views.getD 0 ≤ a.views.getD 0) ∧
    sampleTrendingOut.length = min 20 ([dbSong2, dbSong1] : List DatabaseSong).length :=
  ⟨(claim_C4 zeroLog zeroRand [dbSong2, dbSong1] [2] (.ok none) sampleTrendingOut
      (by decide)).2.2.1,
   (claim_C4 zeroLog zeroRand [dbSong2, dbSong1] [2] (.ok none) sampleTrendingOut
      (by decide)).2.2.2.1⟩

/-- Claim C5: for every candidate and minutes-listened value m ≥ 0, the
history weight term of the contextual score equals min(m * 2, 20):
relative to an empty history map the score rises by exactly
min(m * 2, 20), which is nonnegative and never exceeds 20. -/
theorem claim_C5 (log : ℚ → ℚ) (currentSong : Song) (liked : List Nat)
    (song : DatabaseSong) (r m : ℚ) (hmap : JsMap)
    (hm : 0 ≤ m) (hget : hmap.get song.file_id = some m) :
    min ((hmap.get song.file_id).getD 0 * 2) 20 = min (m * 2) 20 ∧
    ctxScore log currentSong hmap liked song r
      - ctxScore log currentSong (buildHistoryMap []) liked song r = min (m * 2) 20 ∧
    0 ≤ min (m * 2) 20 ∧ min (m * 2) 20 ≤ 20 := by
  have hempty : (buildHistoryMap []).get song.file_id = none := rfl
  refine ⟨by rw [hget]; rfl, ?_, ?_, min_le_right _ _⟩
  · unfold ctxScore
    rw [hget, hempty]
    simp only [Option.getD_some, Option.getD_none]
    have h0 : min ((0:ℚ) * 2) 20 = 0 := by
      rw [zero_mul]
      exact min_eq_left (by norm_num)
    rw [h0]
    ring
  · exact le_min (mul_nonneg hm (by norm_num)) (by norm_num)

/-- Concrete instance of claim C5: 1000 minutes listened still add only
min(2000, 20) = at most 20 points to the contextual score. -/
theorem claim_C5_witness :
    ctxScore zeroLog sessionSong
        (buildHistoryMap [{ song_id := 2, minutes_listened := some 1000 }]) [] dbSong2 0
      - ctxScore zeroLog sessionSong (buildHistoryMap []) [] dbSong2 0
      = min (1000 * 2 : ℚ) 20 ∧
    min (1000 * 2 : ℚ) 20 ≤ 20 :=
  ⟨(claim_C5 zeroLog sessionSong [] dbSong2 0 1000
      (buildHistoryMap [{ song_id := 2, minutes_listened := some 1000 }])
      (by norm_num) (by decide)).2.1,
   (claim_C5 zeroLog sessionSong [] dbSong2 0 1000
      (buildHistoryMap [{ song_id := 2, minutes_listened := some 1000 }])
      (by norm_num) (by decide)).2.2.2⟩

/-- Claim C6: in every strategy, holding every other candidate field,
the preference profile, the liked set, the history weight and the
jitter fixed, a larger matching-tag count never lowers the score net of
jitter. -/
theorem claim_C6 (log : ℚ → ℚ) (p a langs : List String) (liked : List Nat)
    (currentSong : Song) (hmap : JsMap) (ct ca : List String)
    (s1 s2 : DatabaseSong) (r : ℚ)
    (hart : s1.artist = s2.artist) (hlang : s1.language = s2.language)
    (hlikes : s1.likes = s2.likes) (hviews : s1.views = s2.views)
    (hid : s1.file_id = s2.file_id) :
    (smartMatchCount p s1 ≤ smartMatchCount p s2 →
      smartScore log p a langs liked s1 r ≤ smartScore log p a langs liked s2 r) ∧
    (ctxMatchCount currentSong s1 ≤ ctxMatchCount currentSong s2 →
      ctxScore log currentSong hmap liked s1 r
        ≤ ctxScore log currentSong hmap liked s2 r) ∧
    (histMatchCount ct s1 ≤ histMatchCount ct s2 →
      histScore log ct ca liked s1 r ≤ histScore log ct ca liked s2 r) := by
  refine ⟨?_, ?_, ?_⟩
  · intro hc
    unfold smartScore popularityBoost
    rw [hart, hlang, hlikes, hviews, hid]
    have hcast : (smartMatchCount p s1 : ℚ) ≤ smartMatchCount p s2 := Nat.cast_le.mpr hc
    linarith
  · intro hc
    unfold ctxScore popularityBoost
    rw [hart, hlang, hlikes, hviews, hid]
    have hcast : (ctxMatchCount currentSong s1 : ℚ) ≤ ctxMatchCount currentSong s2 :=
      Nat.cast_le.mpr hc
    linarith
  · intro hc
    unfold histScore popularityBoost
    rw [hart, hlikes, hviews, hid]
    have hcast : (histMatchCount ct s1 : ℚ) ≤ histMatchCount ct s2 := Nat.cast_le.mpr hc
    linarith

def dbSong3 : DatabaseSong :=
  { file_id := 3, img_id := 13, name := "three", artist := "Cy", language := "en",
    tags := some [], views := some 1, likes := some 1 }

def dbSong3t : DatabaseSong :=
  { dbSong3 with tags := some ["pop"] }

/-- Concrete instance of claim C6: adding the matching tag pop to an
otherwise identical candidate does not lower its session score. -/
theorem claim_C6_witness :
    smartScore zeroLog ["pop"] [] [] [] dbSong3 0 ≤ smartScore zeroLog ["pop"] [] [] []
      dbSong3t 0 :=
  (claim_C6 zeroLog ["pop"] [] [] [] sessionSong (buildHistoryMap []) [] [] dbSong3
    dbSong3t 0 rfl rfl rfl rfl rfl).1 (by decide)

def curRock : Song :=
  { file_id := 100, img_id := 1, name := "cur", artist := "B", language := "en",
    tags := some ["Rock"], views := some 0, likes := some 0, id := "100", image := "",
    isLiked := false }

def candRock : DatabaseSong :=
  { file_id := 7, img_id := 2, name := "cand", artist := "C", language := "fr",
    tags := some ["rock"], views := some 0, likes := some 0 }

/-- Counterexample to claim C7 as stated: in the contextual strategy the
source compares tags verbatim. The candidate tag rock has its
lower-cased form inside the lower-cased tag set of the current track
(whose tag is Rock), yet the code counts zero matches, not the one
match the claim demands. -/
theorem claim_C7_cex :
    ctxMatchCount curRock candRock = 0 ∧
    jsLower "rock" ∈ (curRock.tags.getD []).map jsLower ∧
    ¬ (ctxMatchCount curRock candRock =
      (((candRock.tags.getD []).map jsLower).filter fun tag =>
        decide (tag ∈ (curRock.tags.getD []).map jsLower)).length) := by
  decide

/-- Claim C7 amended: tag matching is case-insensitive in the session
strategy (both the preferred set and the candidate tags are
lower-cased, so two tags differing only in letter case always match)
and case-insensitive in the history strategy (lower-cased and trimmed
on both sides); in the contextual strategy tags are compared verbatim,
so a candidate tag matches only when it is exactly equal to a tag of
the current track. -/
theorem claim_C7 (p cts : List String) (c1 c2 c : DatabaseSong)
    (cur : Song) (listened : List Song) (s : Song) (t u : String) :
    ((c1.tags.getD []).map jsLower = (c2.tags.getD []).map jsLower →
      smartMatchCount p c1 = smartMatchCount p c2) ∧
    ((c1.tags.getD []).map (fun x => jsTrim (jsLower x))
        = (c2.tags.getD []).map (fun x => jsTrim (jsLower x)) →
      histMatchCount cts c1 = histMatchCount cts c2) ∧
    (jsLower t = jsLower u → s ∈ listened → u ∈ s.tags.getD [] → t ∈ c.tags.getD [] →
      0 < smartMatchCount (preferredTags listened) c) ∧
    ((∀ tag ∈ c.tags.getD [], tag ∉ cur.tags.getD []) → ctxMatchCount cur c = 0) := by
  refine ⟨?_, ?_, ?_, ?_⟩
  · intro h
    unfold smartMatchCount
    rw [h]
  · intro h
    unfold histMatchCount
    rw [h]
  · intro ht hs hu htc
    have hmem : jsLower t ∈ (c.tags.getD []).map jsLower := List.mem_map_of_mem _ htc
    have hpref : jsLower t ∈ preferredTags listened := by
      rw [ht]
      exact List.mem_flatMap.mpr ⟨s, hs, List.mem_map_of_mem _ hu⟩
    unfold smartMatchCount
    exact List.length_pos_of_mem (List.mem_filter.mpr ⟨hmem, decide_eq_true hpref⟩)
  · intro h
    unfold ctxMatchCount
    rw [List.length_eq_zero]
    exact List.filter_eq_nil_iff.mpr fun a ha => by simpa using h a ha

/-- Concrete instance of amended claim C7: in session mode the
candidate tag rock matches the preferred tag set extracted from a
listened song tagged Rock. -/
theorem claim_C7_witness :
    0 < smartMatchCount (preferredTags [curRock]) candRock :=
  (claim_C7 [] [] dbSong1 dbSong1 candRock curRock [curRock] curRock "rock" "Rock").2.2.1
    (by decide) (by decide) (by decide) (by decide)

def curX : Song :=
  { file_id := 101, img_id := 1, name := "curx", artist := "X", language := "en",
    tags := none, views := none, likes := none, id := "101", image := "",
    isLiked := false }

def candx : DatabaseSong :=
  { file_id := 8, img_id := 3, name := "candx", artist := "x", language := "fr",
    tags := none, views := none, likes := none }

def spacedSong : Song :=
  { file_id := 102, img_id := 1, name := "sp", artist := "Ann ", language := "en",
    tags := none, views := none, likes := none, id := "102", image := "",
    isLiked := false }

def candAnn : DatabaseSong :=
  { file_id := 9, img_id := 4, name := "canda", artist := "Ann", language := "fr",
    tags := none, views := none, likes := none }

/-- Counterexample to claim C8 as stated, in two parts. Contextual: the
candidate artist x equals the current artist X after lower-casing and
trimming, yet the code, which compares artists verbatim, awards no
bonus (the whole score is 0 with zero log and zero jitter, not 25).
Session: the listened artist has a trailing space; the source
lower-cases but does not trim on insertion, so the candidate artist
Ann, lower-cased, is not found and the 30-point bonus the claim demands
is not awarded (the score is 0). -/
theorem claim_C8_cex :
    jsLower candx.artist = jsTrim (jsLower curX.artist) ∧
    candx.artist ≠ curX.artist ∧
    ctxScore zeroLog curX (buildHistoryMap []) [] candx 0 = 0 ∧
    jsTrim (jsLower spacedSong.artist) = jsLower candAnn.artist ∧
    jsLower candAnn.artist ∉ preferredArtists [spacedSong] ∧
    smartScore zeroLog [] (preferredArtists [spacedSong]) [] [] candAnn 0 = 0 := by
  refine ⟨by decide, by decide, ?_, by decide, by decide, ?_⟩
  · norm_num [ctxScore, ctxMatchCount, popularityBoost, zeroLog, buildHistoryMap,
      JsMap.get, candx, curX]
    rw [if_neg (by decide : ¬ ("x" = "X")), if_neg (by decide : ¬ ("fr" = "en"))]
    norm_num
  · norm_num [smartScore, smartMatchCount, popularityBoost, zeroLog, candAnn,
      spacedSong, preferredArtists]
    decide

/-- Claim C8 amended: the artist bonus is 30 in session mode, awarded
exactly when the candidate artist, lower-cased (not trimmed), is in the
preferred-artist set of lower-cased (not trimmed) listened artists, so
the session match is case-insensitive but whitespace-sensitive; 25 in
contextual mode, awarded exactly on verbatim equality with the current
artist; and 25 in history mode, awarded exactly when the candidate
artist, lower-cased and trimmed, is in the common-artist set of
lower-cased and trimmed history artists. -/
theorem claim_C8 (log : ℚ → ℚ) (p langs arts : List String) (listened : List Song)
    (liked : List Nat) (cur : Song) (hmap : JsMap) (ct ca : List String)
    (s1 s2 : DatabaseSong) (r : ℚ)
    (htags : s1.tags = s2.tags) (hlang : s1.language = s2.language)
    (hlikes : s1.likes = s2.likes) (hviews : s1.views = s2.views)
    (hid : s1.file_id = s2.file_id) :
    (jsLower s1.artist ∈ preferredArtists listened →
      jsLower s2.artist ∉ preferredArtists listened →
      smartScore log p (preferredArtists listened) langs liked s1 r
        = smartScore log p (preferredArtists listened) langs liked s2 r + 30) ∧
    (jsLower s1.artist = jsLower s2.artist →
      smartScore log p arts langs liked s1 r = smartScore log p arts langs liked s2 r) ∧
    (s1.artist = cur.artist → s2.artist ≠ cur.artist →
      ctxScore log cur hmap liked s1 r = ctxScore log cur hmap liked s2 r + 25) ∧
    (jsTrim (jsLower s1.artist) ∈ ca → jsTrim (jsLower s2.artist) ∉ ca →
      histScore log ct ca liked s1 r = histScore log ct ca liked s2 r + 25) := by
  have hmc : smartMatchCount p s1 = smartMatchCount p s2 := by
    unfold smartMatchCount
    rw [htags]
  have hcc : ctxMatchCount cur s1 = ctxMatchCount cur s2 := by
    unfold ctxMatchCount
    rw [htags]
  have hhc : histMatchCount ct s1 = histMatchCount ct s2 := by
    unfold histMatchCount
    rw [htags]
  refine ⟨?_, ?_, ?_, ?_⟩
  · intro h1 h2
    unfold smartScore popularityBoost
    rw [hmc, hlang, hlikes, hviews, hid, if_pos h1, if_neg h2]
    ring
  · intro h
    unfold smartScore popularityBoost
    rw [hmc, hlang, hlikes, hviews, hid, h]
  · intro h1 h2
    unfold ctxScore popularityBoost
    rw [hcc, hlang, hlikes, hviews, hid, if_pos h1, if_neg h2]
    ring
  · intro h1 h2
    unfold histScore popularityBoost
    rw [hhc, hlikes, hviews, hid, if_pos h1, if_neg h2]
    ring

def candX2 : DatabaseSong :=
  { candx with artist := "X" }

/-- Concrete instance of amended claim C8: in contextual mode the
verbatim-equal artist earns exactly 25 more than the candidate that
matches only after lower-casing. -/
theorem claim_C8_witness :
    ctxScore zeroLog curX (buildHistoryMap []) [] candX2 0
      = ctxScore zeroLog curX (buildHistoryMap []) [] candx 0 + 25 :=
  (claim_C8 zeroLog [] [] [] [] [] curX (buildHistoryMap []) [] [] candX2 candx 0
    rfl rfl rfl rfl rfl).2.2.1 (by decide) (by decide)

/-- Counterexample to claim C9 as stated: two history rows for track 1
with 3 and 4 minutes map to 4 (the last row wins, `Map.set`
overwrites), not to the sum 7. -/
theorem claim_C9_cex :
    (buildHistoryMap [{ song_id := 1, minutes_listened := some 3 },
        { song_id := 1, minutes_listened := some 4 }]).get 1 = some 4 ∧
    (buildHistoryMap [{ song_id := 1, minutes_listened := some 3 },
        { song_id := 1, minutes_listened := some 4 }]).get 1 ≠ some 7 := by
  decide

/-- Minutes of the last history row carrying a given track id (null
minutes read as 0); the characterization the amended claim C9 uses. -/
def lastMinutes : List HistoryRow → Nat → Option ℚ
  | [], _ => none
  | h :: rest, k =>
    match lastMinutes rest k with
    | some v => some v
    | none => if h.song_id = k then some (h.minutes_listened.getD 0) else none

theorem JsMap.get_set_self (m : JsMap) (k : Nat) (v : ℚ) :
    (m.set k v).get k = some v := by
  induction m with
  | nil => simp [JsMap.set, JsMap.get]
  | cons q m ih =>
    by_cases hq : q.1 = k
    · have hset : JsMap.set (q :: m) k v = JsMap.set m k v := by
        simp [JsMap.set, List.filter_cons, hq]
      rw [hset]
      exact ih
    · have hset : JsMap.set (q :: m) k v = q :: JsMap.set m k v := by
        simp [JsMap.set, List.filter_cons, hq]
      have hget : JsMap.get (q :: JsMap.set m k v) k = JsMap.get (JsMap.set m k v) k := by
        simp [JsMap.get, List.find?_cons, hq]
      rw [hset, hget]
      exact ih

theorem JsMap.get_set_ne (m : JsMap) (k k2 : Nat) (v : ℚ) (hk : k2 ≠ k) :
    (m.set k v).get k2 = m.get k2 := by
  induction m with
  | nil =>
    simp [JsMap.set, JsMap.get, List.find?_cons, show ¬ k = k2 from fun h => hk h.symm]
  | cons q m ih =>
    by_cases hq : q.1 = k
    · have hset : JsMap.set (q :: m) k v = JsMap.set m k v := by
        simp [JsMap.set, List.filter_cons, hq]
      have hget : JsMap.get (q :: m) k2 = JsMap.get m k2 := by
        simp [JsMap.get, List.find?_cons, show ¬ q.1 = k2 from fun h => hk (h ▸ hq)]
      rw [hset, hget]
      exact ih
    · have hset : JsMap.set (q :: m) k v = q :: JsMap.set m k v := by
        simp [JsMap.set, List.filter_cons, hq]
      rw [hset]
      by_cases hq2 : q.1 = k2
      · simp [JsMap.get, List.find?_cons, hq2]
      · have h1 : JsMap.get (q :: JsMap.set m k v) k2 = JsMap.get (JsMap.set m k v) k2 := by
          simp [JsMap.get, List.find?_cons, hq2]
        have h2 : JsMap.get (q :: m) k2 = JsMap.get m k2 := by
          simp [JsMap.get, List.find?_cons, hq2]
        rw [h1, h2]
        exact ih

/-- Claim C9 amended: when building the track-to-minutes mapping from
listening history, a later signal for the same track overwrites the
earlier one (JavaScript `Map.set` semantics): the mapped value for a
track equals the minutes of the last signal seen for it (null minutes
read as 0), never the sum of all its signals. -/
theorem claim_C9 (rows : List HistoryRow) (k : Nat) :
    (buildHistoryMap rows).get k = lastMinutes rows k := by
  have h : ∀ m : JsMap,
      ((rows.foldl (fun (m : JsMap) h => m.set h.song_id (h.minutes_listened.getD 0))
          m).get k)
        = match lastMinutes rows k with
          | some v => some v
          | none => m.get k := by
    intro m
    induction rows generalizing m with
    | nil => simp [lastMinutes]
    | cons r rs ih =>
      rw [List.foldl_cons, ih]
      cases hlv : lastMinutes rs k with
      | some v => simp [lastMinutes, hlv]
      | none =>
        simp only [lastMinutes, hlv]
        by_cases hr : r.song_id = k
        · subst hr
          simp [JsMap.get_set_self]
        · rw [if_neg hr]
          exact JsMap.get_set_ne _ _ _ _ fun h2 => hr h2.symm
  rw [show buildHistoryMap rows
      = rows.foldl (fun (m : JsMap) h => m.set h.song_id (h.minutes_listened.getD 0))
        ([] : JsMap) from rfl,
    h ([] : JsMap)]
  cases lastMinutes rows k <;> rfl

/-- Claim C10: scoring is total over candidates with missing optional
fields: a null tag list scores zero tag matches in every strategy (the
score equals that of the same candidate with an empty tag list, rather
than raising), and null like and view counts make the popularity term
log(1 + 0) * 2 + log(1 + 0) * 1, which is 0 whenever log 1 = 0; every
candidate thus receives a well-defined rational score. -/
theorem claim_C10 (log : ℚ → ℚ) (p a langs : List String) (liked : List Nat)
    (cur : Song) (hmap : JsMap) (ct ca : List String)
    (s : DatabaseSong) (r : ℚ) :
    (s.tags = none →
      smartMatchCount p s = 0 ∧ ctxMatchCount cur s = 0 ∧ histMatchCount ct s = 0) ∧
    (s.tags = none →
      smartScore log p a langs liked s r
          = smartScore log p a langs liked { s with tags := some [] } r ∧
        ctxScore log cur hmap liked s r
          = ctxScore log cur hmap liked { s with tags := some [] } r ∧
        histScore log ct ca liked s r
          = histScore log ct ca liked { s with tags := some [] } r) ∧
    (s.likes = none → s.views = none →
      popularityBoost log s = log (1 + 0) * 2 + log (1 + 0) * 1 ∧
      (log 1 = 0 → popularityBoost log s = 0)) := by
  refine ⟨?_, ?_, ?_⟩
  · intro h
    simp [smartMatchCount, ctxMatchCount, histMatchCount, h]
  · intro h
    refine ⟨?_, ?_, ?_⟩ <;>
      simp [smartScore, ctxScore, histScore, smartMatchCount, ctxMatchCount,
        histMatchCount, popularityBoost, h]
  · intro h1 h2
    constructor
    · unfold popularityBoost
      rw [h1, h2]
      norm_num
    · intro hl
      unfold popularityBoost
      rw [h1, h2]
      simp [hl]

/-- Concrete instance of claim C10: a candidate with null tags, likes
and views scores zero tag matches and a zero popularity term instead of
failing. -/
theorem claim_C10_witness :
    smartMatchCount [] candx = 0 ∧
    popularityBoost zeroLog candx = zeroLog (1 + 0) * 2 + zeroLog (1 + 0) * 1 ∧
    popularityBoost zeroLog candx = 0 :=
  ⟨((claim_C10 zeroLog [] [] [] [] curX (buildHistoryMap []) [] [] candx 0).1 rfl).1,
   ((claim_C10 zeroLog [] [] [] [] curX (buildHistoryMap []) [] [] candx 0).2.2
     rfl rfl).1,
   ((claim_C10 zeroLog [] [] [] [] curX (buildHistoryMap []) [] [] candx 0).2.2
     rfl rfl).2 rfl⟩
